import Mathlib

/-!
Shallow embedding of the traceLib repository: a thin initialization wrapper over an
OpenTelemetry tracing SDK (exporter construction from an environment variable, provider
construction with a batching processor and a merged resource, registration of process-wide
globals) plus an HTTP middleware extracting trace context from request headers.

Go pointers to provider objects are modelled as indices into a heap held in a `World`
value; external SDK entry points the wrapper treats as opaque (the jaeger client
constructor, resource merging, traceparent parsing) are modelled from their documented
contracts and, where their behaviour is environment-determined, taken as parameters.
-/

namespace TraceLib

/-- Models a Go error value by its message string. -/
structure GoError where
  msg : String
deriving DecidableEq, Repr

/-- Fixed message returned by newExporter when JAEGER_ADDRESS is empty or unset. -/
def jaegerMissingEnvMsg : String :=
  "couldn\x27t read .env variables for JAEGER_ADDRESS. Please check if you provided it correctly"

/-- Process environment, as an association list of variable bindings. -/
abbrev Env := List (String × String)

/-- Models os.Getenv: the bound value, or the empty string when the variable is unset. -/
def osGetenv (env : Env) (k : String) : String :=
  (env.lookup k).getD ""

/-- Models a jaeger.Exporter handle: records the collector endpoint it targets. -/
structure Exporter where
  endpoint : String
deriving DecidableEq, Repr

/-- Behaviour of the external jaeger client constructor for a given endpoint address:
either an exporter handle or a construction error. The wrapper treats the client as
opaque, so the embedding abstracts over it. -/
abbrev JaegerClient := String → Except GoError Exporter

/-- Modelled from the spec: jaeger.New with a collector endpoint option constructs a span
exporter bound to that collector endpoint (external SDK; no network I/O at this step). -/
def jaegerNewCollector (addr : String) : Except GoError Exporter :=
  Except.ok ⟨addr⟩

/-- Embeds newExporter (src/unnamed/part_000 lines 40 to 50; the copies in src/tracer.go
are textually identical): read JAEGER_ADDRESS, fail with the fixed message when it is
empty, otherwise delegate to the jaeger client, propagating its error unchanged. -/
def newExporter (client : JaegerClient) (env : Env) : Except GoError Exporter :=
  let addr := osGetenv env "JAEGER_ADDRESS"
  if addr = "" then
    Except.error ⟨jaegerMissingEnvMsg⟩
  else
    client addr

/-- Schema URL of semconv v1.12.0, used by newTraceProvider for the service resource. -/
def semconvSchemaURL : String := "https://opentelemetry.io/schemas/1.12.0"

/-- Models an OpenTelemetry resource: a schema URL plus attribute key/value pairs. -/
structure Resource where
  schemaUrl : String
  attrs : List (String × String)
deriving DecidableEq, Repr

/-- Models resource.NewWithAttributes. -/
def resourceNewWithAttributes (schemaUrl : String) (attrs : List (String × String)) :
    Resource :=
  ⟨schemaUrl, attrs⟩

/-- Attribute key produced by semconv.ServiceNameKey. -/
def serviceNameKey : String := "service.name"

/-- Modelled from the spec: resource.Merge (external SDK) fails when the two resources
carry conflicting non-empty schema URLs; otherwise it combines the attributes, the second
resource overriding the first on shared keys. -/
def resourceMerge (a b : Resource) : Except GoError Resource :=
  if a.schemaUrl ≠ "" ∧ b.schemaUrl ≠ "" ∧ a.schemaUrl ≠ b.schemaUrl then
    Except.error ⟨"conflicting Schema URL"⟩
  else
    Except.ok ⟨(if b.schemaUrl = "" then a.schemaUrl else b.schemaUrl),
      a.attrs.filter (fun p => (b.attrs.lookup p.1).isNone) ++ b.attrs⟩

/-- Span processor configuration of a provider; the wrapper only installs a batcher. -/
inductive SpanProcessor where
  | batcher (exp : Exporter)
deriving DecidableEq, Repr

/-- Models an sdktrace.TracerProvider object: its configuration and its shutdown flag. -/
structure TracerProvider where
  processor : SpanProcessor
  res : Resource
  isShutdown : Bool
deriving DecidableEq, Repr

/-- Outcome of a Go computation that may panic instead of returning. -/
inductive PanicOr (α : Type) where
  | panicked (e : GoError)
  | ok (v : α)
deriving DecidableEq, Repr

/-- Embeds newTraceProvider (src/unnamed/part_000 lines 55 to 72; identical in
src/tracer.go): merge the process default resource with the service-name resource under
the semconv schema, panic on a merge error, otherwise build a provider with a batching
span processor over the exporter and the merged resource. The process default resource
returned by resource.Default() is environment-determined, so it is a parameter. -/
def newTraceProvider (defaultRes : Resource) (exp : Exporter) (serviceName : String) :
    PanicOr TracerProvider :=
  match resourceMerge defaultRes
      (resourceNewWithAttributes semconvSchemaURL [(serviceNameKey, serviceName)]) with
  | Except.error e => PanicOr.panicked e
  | Except.ok r => PanicOr.ok ⟨SpanProcessor.batcher exp, r, false⟩

/-- Propagator values the wrapper deals with; the initial otel global is a no-op. -/
inductive Propagator where
  | noop
  | traceContext
deriving DecidableEq, Repr

/-- Models a trace.Tracer handle: a pointer to its provider and the service name it was
obtained with. -/
structure Tracer where
  providerRef : Nat
  name : String
deriving DecidableEq, Repr

/-- Process-wide state touched by initialization: a heap of provider objects (indices
play the role of Go pointers) and the two otel globals. -/
structure World where
  providers : List TracerProvider
  globalProvider : Option Nat
  globalPropagator : Propagator
deriving DecidableEq, Repr

/-- Embeds InitTracerProvider (src/unnamed/part_000 lines 26 to 35): build the exporter,
returning its error if any; build the provider, which may panic; allocate it, install it
and a TraceContext propagator as the otel globals, and return it with a nil error. -/
def InitTracerProvider (client : JaegerClient) (defaultRes : Resource) (env : Env)
    (serviceName : String) (w : World) :
    PanicOr ((Option Nat × Option GoError) × World) :=
  match newExporter client env with
  | Except.error e => PanicOr.ok ((none, some e), w)
  | Except.ok exp =>
    match newTraceProvider defaultRes exp serviceName with
    | PanicOr.panicked e => PanicOr.panicked e
    | PanicOr.ok tp =>
      let ptr := w.providers.length
      PanicOr.ok ((some ptr, none), ⟨w.providers ++ [tp], some ptr, Propagator.traceContext⟩)

/-- Models tp.Shutdown on a provider object: marks it shut down. -/
def shutdownProvider (tp : TracerProvider) : TracerProvider :=
  { tp with isShutdown := true }

/-- Embeds InitTracer (src/tracer.go lines 19 to 31; the second copy at lines 88 to 100
differs only in returning a pointer to the tracer handle): like InitTracerProvider, but
obtains a tracer named after the service from the new provider and, through the deferred
call, shuts that provider down before returning. -/
def InitTracer (client : JaegerClient) (defaultRes : Resource) (env : Env)
    (serviceName : String) (w : World) :
    PanicOr ((Option Tracer × Option GoError) × World) :=
  match newExporter client env with
  | Except.error e => PanicOr.ok ((none, some e), w)
  | Except.ok exp =>
    match newTraceProvider defaultRes exp serviceName with
    | PanicOr.panicked e => PanicOr.panicked e
    | PanicOr.ok tp =>
      let ptr := w.providers.length
      PanicOr.ok ((some (⟨ptr, serviceName⟩ : Tracer), none),
        ⟨w.providers ++ [shutdownProvider tp], some ptr, Propagator.traceContext⟩)

/-- Models a W3C span context as carried by a traceparent header. -/
structure SpanContext where
  traceId : String
  spanId : String
  traceFlags : String
deriving DecidableEq, Repr

/-- Models a Go context as the middleware observes it: the remote span context installed
by extraction, plus the other request-scoped values, which extraction never touches. -/
structure Context where
  remoteSpan : Option SpanContext
  otherValues : List (String × String)
deriving DecidableEq, Repr

/-- Splits a character list on a separator character. -/
def splitOnChar (sep : Char) : List Char → List (List Char)
  | [] => [[]]
  | c :: cs =>
    let r := splitOnChar sep cs
    if c = sep then [] :: r
    else
      match r with
      | [] => [[c]]
      | h :: t => (c :: h) :: t

/-- Decides whether a character is a lowercase hexadecimal digit. -/
def isLowerHexDigit (c : Char) : Bool :=
  c.isDigit || (('a' ≤ c) && (c ≤ 'f'))

/-- Field validity of a traceparent header: version, trace ID, span ID and flags are
lowercase hexadecimal fields of widths 2, 32, 16 and 2; the invalid version ff and
all-zero identifiers are rejected. -/
def validTraceparentFields (ver tid sid fl : List Char) : Bool :=
  ver.length == 2 && ver.all isLowerHexDigit && ver != ['f', 'f'] &&
  tid.length == 32 && tid.all isLowerHexDigit && !tid.all (· == '0') &&
  sid.length == 16 && sid.all isLowerHexDigit && !sid.all (· == '0') &&
  fl.length == 2 && fl.all isLowerHexDigit

/-- Modelled from the spec: the standard traceparent header encoding as parsed by the
external TraceContext propagator on extraction, dash-separated fields checked by
validTraceparentFields; malformed headers parse to none. -/
def parseTraceparent (s : String) : Option SpanContext :=
  match splitOnChar '-' s.data with
  | [ver, tid, sid, fl] =>
    if validTraceparentFields ver tid sid fl then
      some ⟨String.mk tid, String.mk sid, String.mk fl⟩
    else
      none
  | _ => none

/-- Lowercases a string, for case-insensitive header key comparison. -/
def asciiLower (s : String) : String :=
  String.mk (s.data.map Char.toLower)

/-- Models Get of propagation.HeaderCarrier over an http.Header: case-insensitive key
lookup (net/http canonicalizes keys), empty string when the header is absent. -/
def headerGet (headers : List (String × String)) (k : String) : String :=
  match headers.find? (fun p => asciiLower p.1 == asciiLower k) with
  | some p => p.2
  | none => ""

/-- Models Extract of the globally registered propagator: the TraceContext propagator
installs the span context parsed from the traceparent header, returning the context
unchanged when the header is missing or malformed; the initial no-op global always
returns the context unchanged. -/
def propagatorExtract (p : Propagator) (ctx : Context) (headers : List (String × String)) :
    Context :=
  match p with
  | Propagator.noop => ctx
  | Propagator.traceContext =>
    match parseTraceparent (headerGet headers "traceparent") with
    | none => ctx
    | some sc => { ctx with remoteSpan := some sc }

/-- Models the parts of an http.Request the middleware can observe or change. -/
structure Request where
  method : String
  url : String
  headers : List (String × String)
  body : String
  ctx : Context
deriving DecidableEq, Repr

/-- Models the response a handler writes to its ResponseWriter. -/
structure Response where
  status : Nat
  body : String
deriving DecidableEq, Repr

/-- Handlers are modelled as functions from the request to the response they write. -/
abbrev Handler := Request → Response

/-- Models r.WithContext: a copy of the request with only the context replaced. -/
def requestWithContext (r : Request) (ctx : Context) : Request :=
  { r with ctx := ctx }

/-- Embeds ExtractTraceInfoMiddleware (src/unnamed/part_000 lines 79 to 84; identical in
src/tracer.go): extract trace context from the request header carrier with the global
propagator and call next on the request rebound to the derived context. The global
propagator is read at request time and is read-only then, so it is a parameter here. -/
def ExtractTraceInfoMiddleware (globalProp : Propagator) (next : Handler) : Handler :=
  fun r => next (requestWithContext r (propagatorExtract globalProp r.ctx r.headers))

/-- Helper: a sample world for witnesses, with an empty heap and the initial globals. -/
def emptyWorld : World := ⟨[], none, Propagator.noop⟩

/-- Helper: a sample handler for witnesses, writing a fixed successful response. -/
def okHandler : Handler := fun _ => ⟨200, "ok"⟩

/-- Helper: a sample request carrying a valid traceparent header. -/
def tracedRequest : Request :=
  ⟨"GET", "/x",
    [("Traceparent", "00-0af7651916cd43dd8448eb211c80319c-b7ad6b7169203331-01")],
    "", ⟨none, []⟩⟩

/-- Helper: a sample request carrying no tracing headers. -/
def plainRequest : Request :=
  ⟨"GET", "/x", [("Accept", "text/html")], "", ⟨none, []⟩⟩

/-- Helper: when the environment binds JAEGER_ADDRESS to the empty string or not at all,
newExporter returns the fixed missing-configuration error. -/
theorem newExporter_missing (client : JaegerClient) (env : Env)
    (h : osGetenv env "JAEGER_ADDRESS" = "") :
    newExporter client env = Except.error ⟨jaegerMissingEnvMsg⟩ := by
  simp [newExporter, h]

/-- C1: when the environment does not bind JAEGER_ADDRESS, every initialization entry
point returns a nil provider or tracer together with a non-nil error carrying the fixed
message naming the missing variable, and the process-wide state is untouched. -/
theorem initialization_missing_jaeger_address
    (client : JaegerClient) (defaultRes : Resource) (env : Env) (serviceName : String)
    (w : World) (h : env.lookup "JAEGER_ADDRESS" = none) :
    InitTracerProvider client defaultRes env serviceName w
      = PanicOr.ok ((none, some ⟨jaegerMissingEnvMsg⟩), w)
    ∧ InitTracer client defaultRes env serviceName w
      = PanicOr.ok ((none, some ⟨jaegerMissingEnvMsg⟩), w) := by
  have hexp : newExporter client env = Except.error ⟨jaegerMissingEnvMsg⟩ :=
    newExporter_missing client env (by simp [osGetenv, h])
  exact ⟨by simp [InitTracerProvider, hexp], by simp [InitTracer, hexp]⟩

/-- Witness for C1 at the empty environment. -/
theorem initialization_missing_jaeger_address_witness :
    InitTracerProvider jaegerNewCollector ⟨"", []⟩ [] "svc" emptyWorld
      = PanicOr.ok ((none, some ⟨jaegerMissingEnvMsg⟩), emptyWorld)
    ∧ InitTracer jaegerNewCollector ⟨"", []⟩ [] "svc" emptyWorld
      = PanicOr.ok ((none, some ⟨jaegerMissingEnvMsg⟩), emptyWorld) :=
  initialization_missing_jaeger_address jaegerNewCollector ⟨"", []⟩ [] "svc" emptyWorld rfl

/-- C9: an environment binding JAEGER_ADDRESS to the empty string behaves identically to
one not binding it at all: newExporter and both initialization entry points return the
same missing-configuration error and nil result in both cases, because the check is on
the empty string returned by the environment lookup. -/
theorem empty_jaeger_address_like_absent
    (client : JaegerClient) (defaultRes : Resource) (envE envA : Env)
    (serviceName : String) (w : World)
    (hE : envE.lookup "JAEGER_ADDRESS" = some "")
    (hA : envA.lookup "JAEGER_ADDRESS" = none) :
    newExporter client envE = newExporter client envA
    ∧ newExporter client envE = Except.error ⟨jaegerMissingEnvMsg⟩
    ∧ InitTracerProvider client defaultRes envE serviceName w
      = InitTracerProvider client defaultRes envA serviceName w
    ∧ InitTracerProvider client defaultRes envE serviceName w
      = PanicOr.ok ((none, some ⟨jaegerMissingEnvMsg⟩), w)
    ∧ InitTracer client defaultRes envE serviceName w
      = InitTracer client defaultRes envA serviceName w
    ∧ InitTracer client defaultRes envE serviceName w
      = PanicOr.ok ((none, some ⟨jaegerMissingEnvMsg⟩), w) := by
  have hexpE : newExporter client envE = Except.error ⟨jaegerMissingEnvMsg⟩ :=
    newExporter_missing client envE (by simp [osGetenv, hE])
  have hexpA : newExporter client envA = Except.error ⟨jaegerMissingEnvMsg⟩ :=
    newExporter_missing client envA (by simp [osGetenv, hA])
  refine ⟨hexpE.trans hexpA.symm, hexpE, ?_, ?_, ?_, ?_⟩
  · simp [InitTracerProvider, hexpE, hexpA]
  · simp [InitTracerProvider, hexpE]
  · simp [InitTracer, hexpE, hexpA]
  · simp [InitTracer, hexpE]

/-- Witness for C9 at concrete environments, one binding the variable to the empty string
and one not binding it. -/
theorem empty_jaeger_address_like_absent_witness :
    newExporter jaegerNewCollector [("JAEGER_ADDRESS", "")]
      = newExporter jaegerNewCollector []
    ∧ newExporter jaegerNewCollector [("JAEGER_ADDRESS", "")]
      = Except.error ⟨jaegerMissingEnvMsg⟩
    ∧ InitTracerProvider jaegerNewCollector ⟨"", []⟩ [("JAEGER_ADDRESS", "")] "svc" emptyWorld
      = InitTracerProvider jaegerNewCollector ⟨"", []⟩ [] "svc" emptyWorld
    ∧ InitTracerProvider jaegerNewCollector ⟨"", []⟩ [("JAEGER_ADDRESS", "")] "svc" emptyWorld
      = PanicOr.ok ((none, some ⟨jaegerMissingEnvMsg⟩), emptyWorld)
    ∧ InitTracer jaegerNewCollector ⟨"", []⟩ [("JAEGER_ADDRESS", "")] "svc" emptyWorld
      = InitTracer jaegerNewCollector ⟨"", []⟩ [] "svc" emptyWorld
    ∧ InitTracer jaegerNewCollector ⟨"", []⟩ [("JAEGER_ADDRESS", "")] "svc" emptyWorld
      = PanicOr.ok ((none, some ⟨jaegerMissingEnvMsg⟩), emptyWorld) :=
  empty_jaeger_address_like_absent jaegerNewCollector ⟨"", []⟩
    [("JAEGER_ADDRESS", "")] [] "svc" emptyWorld rfl rfl

/-- C7: when JAEGER_ADDRESS is non-empty but the jaeger client fails to construct the
exporter, newExporter returns that construction error unchanged, and both initialization
entry points return it with a nil exporter, provider and tracer, without retrying. -/
theorem exporter_construction_error_propagated
    (client : JaegerClient) (defaultRes : Resource) (env : Env) (serviceName : String)
    (w : World) (addr : String) (e : GoError)
    (haddr : osGetenv env "JAEGER_ADDRESS" = addr) (hne : addr ≠ "")
    (hclient : client addr = Except.error e) :
    newExporter client env = Except.error e
    ∧ InitTracerProvider client defaultRes env serviceName w
      = PanicOr.ok ((none, some e), w)
    ∧ InitTracer client defaultRes env serviceName w
      = PanicOr.ok ((none, some e), w) := by
  have hexp : newExporter client env = Except.error e := by
    simp [newExporter, haddr, hne, hclient]
  exact ⟨hexp, by simp [InitTracerProvider, hexp], by simp [InitTracer, hexp]⟩

/-- Witness for C7 against a client that always fails with a concrete error. -/
theorem exporter_construction_error_propagated_witness :
    newExporter (fun _ => Except.error ⟨"dial failed"⟩) [("JAEGER_ADDRESS", "http://j")]
      = Except.error ⟨"dial failed"⟩
    ∧ InitTracerProvider (fun _ => Except.error ⟨"dial failed"⟩) ⟨"", []⟩
        [("JAEGER_ADDRESS", "http://j")] "svc" emptyWorld
      = PanicOr.ok ((none, some ⟨"dial failed"⟩), emptyWorld)
    ∧ InitTracer (fun _ => Except.error ⟨"dial failed"⟩) ⟨"", []⟩
        [("JAEGER_ADDRESS", "http://j")] "svc" emptyWorld
      = PanicOr.ok ((none, some ⟨"dial failed"⟩), emptyWorld) :=
  exporter_construction_error_propagated (fun _ => Except.error ⟨"dial failed"⟩)
    ⟨"", []⟩ [("JAEGER_ADDRESS", "http://j")] "svc" emptyWorld "http://j" ⟨"dial failed"⟩
    rfl (by decide) rfl

/-- C10: initialization is atomic with respect to the process-wide state on its
returned-error path: whenever InitTracerProvider or InitTracer returns a non-nil error,
the heap and both otel globals are exactly as before the call and the returned provider
or tracer is nil. -/
theorem init_error_leaves_globals_unchanged
    (client : JaegerClient) (defaultRes : Resource) (env : Env) (serviceName : String)
    (w : World) :
    (∀ p e w2, InitTracerProvider client defaultRes env serviceName w
        = PanicOr.ok ((p, some e), w2) → w2 = w ∧ p = none)
    ∧ (∀ t e w2, InitTracer client defaultRes env serviceName w
        = PanicOr.ok ((t, some e), w2) → w2 = w ∧ t = none) := by
  constructor
  · intro p e w2 hinit
    unfold InitTracerProvider at hinit
    cases hex : newExporter client env with
    | error err =>
      simp only [hex, PanicOr.ok.injEq, Prod.mk.injEq] at hinit
      exact ⟨hinit.2.symm, hinit.1.1.symm⟩
    | ok exp =>
      simp only [hex] at hinit
      cases htp : newTraceProvider defaultRes exp serviceName with
      | panicked pe => simp only [htp] at hinit; exact PanicOr.noConfusion hinit
      | ok tp => simp [htp] at hinit
  · intro t e w2 hinit
    unfold InitTracer at hinit
    cases hex : newExporter client env with
    | error err =>
      simp only [hex, PanicOr.ok.injEq, Prod.mk.injEq] at hinit
      exact ⟨hinit.2.symm, hinit.1.1.symm⟩
    | ok exp =>
      simp only [hex] at hinit
      cases htp : newTraceProvider defaultRes exp serviceName with
      | panicked pe => simp only [htp] at hinit; exact PanicOr.noConfusion hinit
      | ok tp => simp [htp] at hinit

/-- Witness for C10: applying the atomicity theorem to a concrete failing run leaves the
initial world intact with a nil provider. -/
theorem init_error_leaves_globals_unchanged_witness :
    emptyWorld = emptyWorld ∧ (none : Option Nat) = none :=
  (init_error_leaves_globals_unchanged jaegerNewCollector ⟨"", []⟩ [] "svc" emptyWorld).1
    none ⟨jaegerMissingEnvMsg⟩ emptyWorld rfl

/-- C3: newTraceProvider turns a resource-merge failure into a panic carrying that very
error, never into a returned error; its only outcomes are a panic on merge failure or a
successfully constructed provider. -/
theorem newTraceProvider_panics_on_merge_error
    (defaultRes : Resource) (exp : Exporter) (serviceName : String) :
    (∀ e, resourceMerge defaultRes
        (resourceNewWithAttributes semconvSchemaURL [(serviceNameKey, serviceName)])
        = Except.error e
      → newTraceProvider defaultRes exp serviceName = PanicOr.panicked e)
    ∧ ((∃ e, newTraceProvider defaultRes exp serviceName = PanicOr.panicked e
          ∧ resourceMerge defaultRes
              (resourceNewWithAttributes semconvSchemaURL [(serviceNameKey, serviceName)])
            = Except.error e)
        ∨ ∃ tp, newTraceProvider defaultRes exp serviceName = PanicOr.ok tp) := by
  constructor
  · intro e he
    simp [newTraceProvider, he]
  · cases hm : resourceMerge defaultRes
        (resourceNewWithAttributes semconvSchemaURL [(serviceNameKey, serviceName)]) with
    | error e =>
      refine Or.inl ⟨e, ?_, rfl⟩
      simp [newTraceProvider, hm]
    | ok r =>
      refine Or.inr ⟨⟨SpanProcessor.batcher exp, r, false⟩, ?_⟩
      simp [newTraceProvider, hm]

/-- Witness for C3: a process default resource carrying an older schema URL makes the
merge fail and newTraceProvider panic with the merge error. -/
theorem newTraceProvider_panics_on_merge_error_witness :
    newTraceProvider ⟨"https://opentelemetry.io/schemas/1.4.0", []⟩ ⟨"http://j"⟩ "svc"
      = PanicOr.panicked ⟨"conflicting Schema URL"⟩ :=
  (newTraceProvider_panics_on_merge_error
      ⟨"https://opentelemetry.io/schemas/1.4.0", []⟩ ⟨"http://j"⟩ "svc").1
    ⟨"conflicting Schema URL"⟩ rfl

/-- C6: on every successful run, InitTracer returns a tracer named after the service and
bound to the freshly allocated provider, and that provider object is already shut down
when the call returns. -/
theorem initTracer_shuts_down_provider
    (client : JaegerClient) (defaultRes : Resource) (env : Env) (serviceName : String)
    (w : World) (t : Tracer) (w2 : World)
    (h : InitTracer client defaultRes env serviceName w
      = PanicOr.ok ((some t, none), w2)) :
    t.name = serviceName
    ∧ t.providerRef = w.providers.length
    ∧ ∃ tp, w2.providers[t.providerRef]? = some tp ∧ tp.isShutdown = true := by
  unfold InitTracer at h
  cases hex : newExporter client env with
  | error err => simp [hex] at h
  | ok exp =>
    simp only [hex] at h
    cases htp : newTraceProvider defaultRes exp serviceName with
    | panicked pe =>
      simp only [htp] at h
      exact PanicOr.noConfusion h
    | ok tp =>
      simp only [htp, PanicOr.ok.injEq, Prod.mk.injEq, Option.some.injEq] at h
      obtain ⟨⟨ht, -⟩, hw⟩ := h
      subst ht
      subst hw
      exact ⟨rfl, rfl, shutdownProvider tp, List.getElem?_concat_length _ _, rfl⟩

/-- Witness for C6 at a concrete successful run. -/
theorem initTracer_shuts_down_provider_witness :
    (⟨0, "svc"⟩ : Tracer).name = "svc"
    ∧ (⟨0, "svc"⟩ : Tracer).providerRef = emptyWorld.providers.length
    ∧ ∃ tp, (⟨[⟨SpanProcessor.batcher ⟨"http://j"⟩,
          ⟨semconvSchemaURL, [(serviceNameKey, "svc")]⟩, true⟩],
        some 0, Propagator.traceContext⟩ : World).providers[(⟨0, "svc"⟩ : Tracer).providerRef]?
        = some tp ∧ tp.isShutdown = true :=
  initTracer_shuts_down_provider jaegerNewCollector ⟨"", []⟩
    [("JAEGER_ADDRESS", "http://j")] "svc" emptyWorld ⟨0, "svc"⟩
    ⟨[⟨SpanProcessor.batcher ⟨"http://j"⟩,
        ⟨semconvSchemaURL, [(serviceNameKey, "svc")]⟩, true⟩],
      some 0, Propagator.traceContext⟩ rfl

/-- C2: when JAEGER_ADDRESS is non-empty and exporter and provider construction succeed,
InitTracerProvider returns a non-nil provider with a nil error and InitTracer a non-nil
tracer with a nil error, and both install the freshly constructed provider as the global
tracer provider and the TraceContext propagator as the global propagator. -/
theorem initialization_success_installs_globals
    (client : JaegerClient) (defaultRes : Resource) (env : Env) (serviceName : String)
    (w : World) (addr : String) (exp : Exporter) (tp : TracerProvider)
    (haddr : osGetenv env "JAEGER_ADDRESS" = addr) (hne : addr ≠ "")
    (hclient : client addr = Except.ok exp)
    (htp : newTraceProvider defaultRes exp serviceName = PanicOr.ok tp) :
    (∃ ptr w2, InitTracerProvider client defaultRes env serviceName w
        = PanicOr.ok ((some ptr, none), w2)
      ∧ w2.globalProvider = some ptr
      ∧ w2.globalPropagator = Propagator.traceContext
      ∧ w2.providers[ptr]? = some tp)
    ∧ (∃ t w2, InitTracer client defaultRes env serviceName w
        = PanicOr.ok ((some t, none), w2)
      ∧ t.name = serviceName
      ∧ w2.globalProvider = some t.providerRef
      ∧ w2.globalPropagator = Propagator.traceContext
      ∧ w2.providers[t.providerRef]? = some (shutdownProvider tp)) := by
  have hexp : newExporter client env = Except.ok exp := by
    simp [newExporter, haddr, hne, hclient]
  constructor
  · refine ⟨w.providers.length,
      ⟨w.providers ++ [tp], some w.providers.length, Propagator.traceContext⟩,
      ?_, rfl, rfl, List.getElem?_concat_length _ _⟩
    simp [InitTracerProvider, hexp, htp]
  · refine ⟨⟨w.providers.length, serviceName⟩,
      ⟨w.providers ++ [shutdownProvider tp], some w.providers.length,
        Propagator.traceContext⟩,
      ?_, rfl, rfl, rfl, List.getElem?_concat_length _ _⟩
    simp [InitTracer, hexp, htp]

/-- Witness for C2 at a concrete environment, service name and collector address. -/
theorem initialization_success_installs_globals_witness :
    (∃ ptr w2, InitTracerProvider jaegerNewCollector ⟨"", []⟩
        [("JAEGER_ADDRESS", "http://j")] "svc" emptyWorld
        = PanicOr.ok ((some ptr, none), w2)
      ∧ w2.globalProvider = some ptr
      ∧ w2.globalPropagator = Propagator.traceContext
      ∧ w2.providers[ptr]? = some ⟨SpanProcessor.batcher ⟨"http://j"⟩,
          ⟨semconvSchemaURL, [(serviceNameKey, "svc")]⟩, false⟩)
    ∧ (∃ t w2, InitTracer jaegerNewCollector ⟨"", []⟩
        [("JAEGER_ADDRESS", "http://j")] "svc" emptyWorld
        = PanicOr.ok ((some t, none), w2)
      ∧ t.name = "svc"
      ∧ w2.globalProvider = some t.providerRef
      ∧ w2.globalPropagator = Propagator.traceContext
      ∧ w2.providers[t.providerRef]?
        = some (shutdownProvider ⟨SpanProcessor.batcher ⟨"http://j"⟩,
            ⟨semconvSchemaURL, [(serviceNameKey, "svc")]⟩, false⟩)) :=
  initialization_success_installs_globals jaegerNewCollector ⟨"", []⟩
    [("JAEGER_ADDRESS", "http://j")] "svc" emptyWorld "http://j" ⟨"http://j"⟩
    ⟨SpanProcessor.batcher ⟨"http://j"⟩,
      ⟨semconvSchemaURL, [(serviceNameKey, "svc")]⟩, false⟩
    rfl (by decide) rfl rfl

/-- Helper: looking a key up in a merged attribute list finds the overriding binding. -/
theorem lookup_merge_override (a b : List (String × String)) (k v : String)
    (hb : b.lookup k = some v) :
    ((a.filter (fun p => (b.lookup p.1).isNone)) ++ b).lookup k = some v := by
  rw [List.lookup_append]
  have hnone : (a.filter (fun p => (b.lookup p.1).isNone)).lookup k = none := by
    rw [List.lookup_eq_none_iff]
    intro p hp
    have hmem := List.mem_filter.mp hp
    have hnone2 : b.lookup p.1 = none := by
      simpa [Option.isNone_iff_eq_none] using hmem.2
    simp only [bne_iff_ne, ne_eq]
    intro hkp
    rw [← hkp, hb] at hnone2
    exact Option.noConfusion hnone2
  simp [hnone, hb]

/-- C8: every successful call of InitTracerProvider against the jaeger collector client
yields a provider configured with a batching span processor wrapping the constructed
exporter, that exporter targeting the address read from JAEGER_ADDRESS, and a merged
resource whose service.name attribute equals the supplied service name. -/
theorem provider_configuration_on_success
    (defaultRes : Resource) (env : Env) (serviceName : String) (w : World)
    (ptr : Nat) (w2 : World)
    (h : InitTracerProvider jaegerNewCollector defaultRes env serviceName w
      = PanicOr.ok ((some ptr, none), w2)) :
    ∃ tp, w2.providers[ptr]? = some tp
      ∧ tp.processor = SpanProcessor.batcher ⟨osGetenv env "JAEGER_ADDRESS"⟩
      ∧ tp.res.attrs.lookup serviceNameKey = some serviceName := by
  unfold InitTracerProvider at h
  cases hex : newExporter jaegerNewCollector env with
  | error err => simp [hex] at h
  | ok exp =>
    simp only [hex] at h
    have hexp : exp = ⟨osGetenv env "JAEGER_ADDRESS"⟩ := by
      unfold newExporter jaegerNewCollector at hex
      by_cases hz : osGetenv env "JAEGER_ADDRESS" = ""
      · simp [hz] at hex
      · simp only [hz, if_neg, ite_false] at hex
        exact (Except.ok.inj hex).symm
    cases htp : newTraceProvider defaultRes exp serviceName with
    | panicked pe =>
      simp only [htp] at h
      exact PanicOr.noConfusion h
    | ok tp =>
      simp only [htp, PanicOr.ok.injEq, Prod.mk.injEq, Option.some.injEq] at h
      obtain ⟨⟨hptr, -⟩, hw⟩ := h
      subst hptr
      subst hw
      refine ⟨tp, List.getElem?_concat_length _ _, ?_, ?_⟩
      · -- processor of the provider built by newTraceProvider
        unfold newTraceProvider at htp
        cases hm : resourceMerge defaultRes
            (resourceNewWithAttributes semconvSchemaURL
              [(serviceNameKey, serviceName)]) with
        | error e => simp [hm] at htp
        | ok r =>
          simp only [hm, PanicOr.ok.injEq] at htp
          rw [← htp, hexp]
      · unfold newTraceProvider at htp
        cases hm : resourceMerge defaultRes
            (resourceNewWithAttributes semconvSchemaURL
              [(serviceNameKey, serviceName)]) with
        | error e => simp [hm] at htp
        | ok r =>
          simp only [hm, PanicOr.ok.injEq] at htp
          have hr : r.attrs = defaultRes.attrs.filter
                (fun p => (([(serviceNameKey, serviceName)] : List (String × String)).lookup
                  p.1).isNone)
              ++ [(serviceNameKey, serviceName)] := by
            unfold resourceMerge at hm
            by_cases hc : defaultRes.schemaUrl ≠ "" ∧ semconvSchemaURL ≠ ""
                ∧ defaultRes.schemaUrl ≠ semconvSchemaURL
            · simp [resourceNewWithAttributes, hc] at hm
            · simp only [resourceNewWithAttributes, hc, if_neg, ite_false] at hm
              exact (congrArg Resource.attrs (Except.ok.inj hm)).symm
          rw [← htp]
          simp only [hr]
          exact lookup_merge_override _ _ _ _ (by simp)

/-- Witness for C8 at the scenario from the spec: collector address
http://localhost:14268/api/traces and service name checkout-svc. -/
theorem provider_configuration_on_success_witness :
    ∃ tp, (⟨[⟨SpanProcessor.batcher ⟨"http://localhost:14268/api/traces"⟩,
          ⟨semconvSchemaURL, [(serviceNameKey, "checkout-svc")]⟩, false⟩],
        some 0, Propagator.traceContext⟩ : World).providers[(0 : Nat)]? = some tp
      ∧ tp.processor = SpanProcessor.batcher
          ⟨osGetenv [("JAEGER_ADDRESS", "http://localhost:14268/api/traces")]
            "JAEGER_ADDRESS"⟩
      ∧ tp.res.attrs.lookup serviceNameKey = some "checkout-svc" :=
  provider_configuration_on_success ⟨"", []⟩
    [("JAEGER_ADDRESS", "http://localhost:14268/api/traces")] "checkout-svc"
    emptyWorld 0
    ⟨[⟨SpanProcessor.batcher ⟨"http://localhost:14268/api/traces"⟩,
        ⟨semconvSchemaURL, [(serviceNameKey, "checkout-svc")]⟩, false⟩],
      some 0, Propagator.traceContext⟩ rfl

/-- C4: with the TraceContext propagator installed as the global, the middleware invokes
the next handler on the request rebound to a derived context whose remote span context
carries exactly the trace ID field encoded in the valid traceparent header. -/
theorem middleware_valid_traceparent_roundtrip
    (next : Handler) (r : Request) (sc : SpanContext)
    (h : parseTraceparent (headerGet r.headers "traceparent") = some sc) :
    ExtractTraceInfoMiddleware Propagator.traceContext next r
      = next { r with ctx := { r.ctx with remoteSpan := some sc } }
    ∧ ∀ ver tid sid fl,
        splitOnChar '-' (headerGet r.headers "traceparent").data = [ver, tid, sid, fl]
        → sc.traceId = String.mk tid := by
  constructor
  · simp [ExtractTraceInfoMiddleware, requestWithContext, propagatorExtract, h]
  · intro ver tid sid fl hs
    cases hv : validTraceparentFields ver tid sid fl with
    | false =>
      have hps : parseTraceparent (headerGet r.headers "traceparent") = none := by
        unfold parseTraceparent
        rw [hs]
        show (if validTraceparentFields ver tid sid fl then
            some (⟨String.mk tid, String.mk sid, String.mk fl⟩ : SpanContext)
          else none) = none
        rw [hv]
        rfl
      rw [hps] at h
      exact Option.noConfusion h
    | true =>
      have hps : parseTraceparent (headerGet r.headers "traceparent")
          = some ⟨String.mk tid, String.mk sid, String.mk fl⟩ := by
        unfold parseTraceparent
        rw [hs]
        show (if validTraceparentFields ver tid sid fl then
            some (⟨String.mk tid, String.mk sid, String.mk fl⟩ : SpanContext)
          else none) = some ⟨String.mk tid, String.mk sid, String.mk fl⟩
        rw [hv]
        rfl
      rw [h] at hps
      exact congrArg SpanContext.traceId (Option.some.inj hps)

/-- Witness for C4 at a concrete request with a valid traceparent header. -/
theorem middleware_valid_traceparent_roundtrip_witness :
    ExtractTraceInfoMiddleware Propagator.traceContext okHandler tracedRequest
      = okHandler ⟨"GET", "/x",
          [("Traceparent", "00-0af7651916cd43dd8448eb211c80319c-b7ad6b7169203331-01")],
          "",
          ⟨some ⟨"0af7651916cd43dd8448eb211c80319c", "b7ad6b7169203331", "01"⟩, []⟩⟩
    ∧ ∀ ver tid sid fl,
        splitOnChar '-' (headerGet tracedRequest.headers "traceparent").data
          = [ver, tid, sid, fl]
        → (⟨"0af7651916cd43dd8448eb211c80319c", "b7ad6b7169203331", "01"⟩ :
            SpanContext).traceId = String.mk tid :=
  middleware_valid_traceparent_roundtrip okHandler tracedRequest
    ⟨"0af7651916cd43dd8448eb211c80319c", "b7ad6b7169203331", "01"⟩ (by decide)

/-- C5: when the traceparent header is missing or malformed, extraction returns the
request context unchanged under every propagator, so the middleware forwards the request
to the next handler exactly as received, the response is exactly what next produces, and
a context with no active trace stays without one. -/
theorem middleware_no_trace_headers_frame
    (p : Propagator) (next : Handler) (r : Request)
    (h : parseTraceparent (headerGet r.headers "traceparent") = none) :
    propagatorExtract p r.ctx r.headers = r.ctx
    ∧ ExtractTraceInfoMiddleware p next r = next r := by
  have hext : propagatorExtract p r.ctx r.headers = r.ctx := by
    cases p with
    | noop => rfl
    | traceContext => simp [propagatorExtract, h]
  refine ⟨hext, ?_⟩
  simp [ExtractTraceInfoMiddleware, requestWithContext, hext]

/-- Witness for C5 at a concrete request with no tracing headers. -/
theorem middleware_no_trace_headers_frame_witness :
    propagatorExtract Propagator.traceContext plainRequest.ctx plainRequest.headers
      = plainRequest.ctx
    ∧ ExtractTraceInfoMiddleware Propagator.traceContext okHandler plainRequest
      = okHandler plainRequest :=
  middleware_no_trace_headers_frame Propagator.traceContext okHandler plainRequest
    (by decide)

end TraceLib
